import Mathlib

/-!
Verification of the Voice Conversation Orchestration Engine of the
style-shepherd repository, against its natural-language specification.

The definitions below are a shallow embedding of the TypeScript sources:
  * `src/server/src/services/STTService.ts`    (speech-to-text resolver)
  * `src/server/src/services/VoiceAssistant.ts` (conversation orchestration,
    rule-based intent extraction, preference detection and merging,
    conversation history access)
External provider behaviour (OpenAI Whisper, ElevenLabs, the LLM service and
the TTS service, whose sources do not appear under `src/`) is represented by
outcome-typed environment parameters, so the control flow of the embedded
functions is exactly the control flow of the TypeScript code.

Confidence scores (0.9, 0.85, ...) are modelled as exact integers in
hundredths (0.9 ↦ 90): every confidence constant and sum in the source is an
exact multiple of 0.01 and no claim depends on float rounding.

JavaScript peculiarities that matter are modelled explicitly:
  * string truthiness (`""` is falsy) via `strTruthy`;
  * object spread `{...a, ...b}` on string-keyed records via `mergeObj`
    (ordered association lists: keys of `a` first, values overridden by `b`,
    then new keys of `b`);
  * `Array.prototype.filter((v,i,arr) => arr.indexOf(v) === i)` via
    `dedupFirst` (keep the first occurrence of each element);
  * `slice(-limit)` via `sliceLast` (note `slice(-0) = slice(0)`);
  * regular-expression tests over lower-cased text via dedicated
    word-boundary / pattern matchers.
-/

deriving instance DecidableEq for Except

/-- The apostrophe character, used inside several source string literals. -/
def apos : Char := Char.ofNat 39

/-- Glue two strings with an apostrophe between them. -/
def strApos (a b : String) : String := a ++ String.singleton apos ++ b

/-- JavaScript string truthiness for an optional string: present and nonempty. -/
def strTruthy : Option String → Bool
  | some s => s ≠ ""
  | none => false

/-- JavaScript `\w` word character: ASCII letter, digit or underscore. -/
def isWordChar (c : Char) : Bool := c.isAlphanum || c == '_'

/-- JavaScript `\s` whitespace (the ASCII part, which is all that the
embedded inputs use): space, tab, newline, carriage return, form feed,
vertical tab. -/
def isWs (c : Char) : Bool :=
  c == ' ' || c == '\t' || c == '\n' || c == '\r' ||
  c == Char.ofNat 12 || c == Char.ofNat 11

/-- Consume a literal character sequence from the front of `s`. -/
def dropLit : List Char → List Char → Option (List Char)
  | [], s => some s
  | _ :: _, [] => none
  | k :: kt, c :: ct => if k == c then dropLit kt ct else none

/-- The `\s+` : consume a maximal nonempty run of whitespace. -/
def ws1 (s : List Char) : Option (List Char) :=
  match s with
  | c :: _ => if isWs c then some (s.dropWhile isWs) else none
  | [] => none

/-- The `kw` matches at the head of `s` and is followed by a word boundary
(end of string or a non-word character).  The keywords used all end in a
word character, so this is the JS `\b` after the keyword. -/
def matchKeywordAt : List Char → List Char → Bool
  | [], [] => true
  | [], c :: _ => !isWordChar c
  | _ :: _, [] => false
  | k :: kt, c :: ct => k == c && matchKeywordAt kt ct

/-- Scan `s` for an occurrence of `kw` preceded by a word boundary (start of
string or a non-word character) and followed by one; `prevWord` says whether
the character just before `s` was a word character.  This is
`/\bkw\b/.test(s)` for a keyword beginning and ending in word characters. -/
def containsWordFrom (kw : List Char) : Bool → List Char → Bool
  | _, [] => false
  | prevWord, c :: rest =>
    (!prevWord && matchKeywordAt kw (c :: rest)) ||
      containsWordFrom kw (isWordChar c) rest

/-- The `/\b(kw1|kw2|...)\b/.test(text)` for a list of keywords. -/
def containsAnyWord (text : String) (kws : List String) : Bool :=
  kws.any (fun kw => containsWordFrom kw.data false text.data)

/-- The `String.prototype.includes`: plain substring containment. -/
def containsSubstr (text sub : String) : Bool :=
  go text.data sub.data
where
  go : List Char → List Char → Bool
    | s, sub =>
      match s with
      | [] => sub.isEmpty
      | _ :: rest => sub.isPrefixOf s || go rest sub

/-- JS `arr.filter((v,i,arr) => arr.indexOf(v) === i)`:
keep the first occurrence of each element, preserving order. -/
def dedupAux (seen : List String) : List String → List String
  | [] => []
  | x :: xs => if x ∈ seen then dedupAux seen xs else x :: dedupAux (x :: seen) xs

/-- Deduplicate a list keeping first occurrences. -/
def dedupFirst (xs : List String) : List String := dedupAux [] xs

/-- First-match lookup in an ordered association list (JS property access on
the object this list represents). -/
def alookup : List (String × String) → String → Option String
  | [], _ => none
  | (k', v) :: t, k => if k' == k then some v else alookup t k

/-- JS object spread `{...a, ...b}` on string-keyed records:
keys of `a` in order with values overridden key-wise by `b`, followed by the
keys of `b` that are not in `a`, in order. -/
def mergeObj (a b : List (String × String)) : List (String × String) :=
  a.map (fun p => (p.1, (alookup b p.1).getD p.2)) ++
    b.filter (fun p => (alookup a p.1).isNone)

/-- The `x` if present, else `y` (JS `x ?? y` on fields known to be either
absent or useful, and the effect of object spread on a single field). -/
def oor {α : Type} : Option α → Option α → Option α
  | some v, _ => some v
  | none, y => y

/-- JS `toLowerCase` (ASCII; `String.toLower` itself does not reduce in the
kernel, so the map is done on the character list). -/
def toLowerStr (s : String) : String := String.mk (s.data.map Char.toLower)

/-- JS `toUpperCase` (ASCII). -/
def toUpperStr (s : String) : String := String.mk (s.data.map Char.toUpper)

/-- JS `String.prototype.trim`: strip whitespace from both ends. -/
def trimStr (s : String) : String :=
  String.mk (((s.data.dropWhile isWs).reverse.dropWhile isWs).reverse)

/-- JS `x || y` where `x` is an optional string and the empty string is
falsy. -/
def orTruthy (x : Option String) (y : Option String) : Option String :=
  if strTruthy x then x else y

-- ======================================================================
-- STTService.ts
-- ======================================================================

/-- The `source` tag of a transcription result (`STTService.ts` line 14). -/
inductive STTSource where
  | openai
  | elevenlabs
  | fallback
deriving DecidableEq, Repr

/-- The `STTResult` (`STTService.ts` lines 11-16). -/
structure STTResult where
  text : String
  confidence : Option Nat := none
  source : STTSource
  language : Option String := none
deriving DecidableEq, Repr

/-- Options accepted by `transcribe` (`STTService.ts` lines 56-59). -/
structure STTOptions where
  language : Option String := none
  prompt : Option String := none
deriving DecidableEq, Repr

/-- Raw response of the OpenAI Whisper API call made by
`transcribeWithWhisper`; the call itself either throws or yields this. -/
structure WhisperResp where
  text : String
  confidence : Option Nat := none
  language : Option String := none
deriving DecidableEq, Repr

/-- Raw response of the ElevenLabs speech-to-text call made by
`transcribeWithElevenLabs`; `text` may be absent or empty (both falsy). -/
structure ElevenResp where
  text : Option String := none
  confidence : Option Nat := none
deriving DecidableEq, Repr

/-- Environment of `STTService`: which provider clients were initialised
(constructor, lines 23-49), whether the ElevenLabs SDK exposes a
`speechToText` surface (line 140), and what each provider does when
actually called. -/
structure STTEnv where
  openaiConfigured : Bool
  elevenConfigured : Bool
  elevenHasSTT : Bool
  whisper : Except Unit WhisperResp
  eleven : Except Unit ElevenResp
deriving DecidableEq, Repr

/-- Errors thrown by `transcribe` itself (line 68). -/
inductive STTError where
  | audioTooLarge
deriving DecidableEq, Repr

/-- An upstream provider call that was actually issued. -/
inductive ProviderCall where
  | whisper
  | eleven
deriving DecidableEq, Repr

/-- The `MAX_FILE_SIZE = 25 * 1024 * 1024` (`STTService.ts` line 21). -/
def MAX_FILE_SIZE : Nat := 25 * 1024 * 1024

/-- JS `x || c` for an optional confidence (in hundredths) where `0` is
falsy (used for the confidence defaults at lines 125 and 146). -/
def confOr (x : Option Nat) (c : Nat) : Nat :=
  match x with
  | some v => if v = 0 then c else v
  | none => c

/-- The `STTResult` built from a successful Whisper response
(`transcribeWithWhisper`, lines 123-128): source `openai`, confidence
defaulted to 0.9, language from the response or the options. -/
def whisperResult (w : WhisperResp) (opts : STTOptions) : STTResult :=
  { text := w.text
    confidence := some (confOr w.confidence 90)
    source := STTSource.openai
    language := orTruthy w.language opts.language }

/-- The `transcribeWithWhisper` (lines 100-129): throws iff the provider call
throws, otherwise wraps the response. -/
def transcribeWithWhisper (env : STTEnv) (opts : STTOptions) :
    Except Unit STTResult :=
  match env.whisper with
  | Except.error e => Except.error e
  | Except.ok w => Except.ok (whisperResult w opts)

/-- The `transcribeWithElevenLabs` (lines 134-156): requires the SDK to expose
`speechToText`; a thrown provider error is re-thrown; a response with a
truthy `text` is wrapped with source `elevenlabs` and confidence defaulted
to 0.8; anything else falls through to `throw 'ElevenLabs STT not
available'`. -/
def transcribeWithElevenLabs (env : STTEnv) : Except Unit STTResult :=
  if env.elevenHasSTT then
    match env.eleven with
    | Except.error _ => Except.error ()
    | Except.ok r =>
      if strTruthy r.text then
        Except.ok
          { text := r.text.getD ""
            confidence := some (confOr r.confidence 80)
            source := STTSource.elevenlabs }
      else Except.error ()
  else Except.error ()

/-- The sentinel text returned when no provider produced a transcription
(`STTService.ts` line 91, also `VoiceAssistant.ts` line 543). -/
def fallbackText : String :=
  "[Audio transcription needed - please configure STT service]"

/-- The sentinel result of `transcribe` (lines 90-94). -/
def fallbackSTTResult : STTResult :=
  { text := fallbackText
    confidence := some 0
    source := STTSource.fallback }

/-- The `STTService.transcribe` (lines 54-95).  The audio buffer is a byte
list.  Returns the outcome together with the list of upstream provider
calls issued, in order.  Oversized audio throws before any provider call;
then Whisper is tried if configured; on its failure ElevenLabs is tried if
configured; if neither produced a result the sentinel is returned (not
thrown). -/
def transcribe (env : STTEnv) (buf : List Nat) (opts : STTOptions) :
    Except STTError STTResult × List ProviderCall :=
  if buf.length > MAX_FILE_SIZE then
    (Except.error STTError.audioTooLarge, [])
  else
    let whisperCalls : List ProviderCall :=
      if env.openaiConfigured then [ProviderCall.whisper] else []
    let whisperTry : Option (Except Unit STTResult) :=
      if env.openaiConfigured then some (transcribeWithWhisper env opts) else none
    match whisperTry with
    | some (Except.ok r) => (Except.ok r, whisperCalls)
    | _ =>
      let elevenCalls : List ProviderCall :=
        if env.elevenConfigured && env.elevenHasSTT then [ProviderCall.eleven] else []
      let elevenTry : Option (Except Unit STTResult) :=
        if env.elevenConfigured then some (transcribeWithElevenLabs env) else none
      match elevenTry with
      | some (Except.ok r) => (Except.ok r, whisperCalls ++ elevenCalls)
      | _ => (Except.ok fallbackSTTResult, whisperCalls ++ elevenCalls)

-- ======================================================================
-- VoiceAssistant.ts : rule-based intent and entity extraction
-- (private method extractIntentAndEntities, lines 805-923)
-- ======================================================================

/-- The closed intent set (`VoiceAssistant.ts` lines 812-823). -/
def intentSet : List String :=
  ["search_product", "get_recommendations", "ask_about_size",
   "check_availability", "add_to_cart", "get_style_advice",
   "return_product", "track_order", "save_preference", "general_question"]

/-- Keywords of `/\b(remember|save|store|prefer|my preference|i like|i wear)\b/i`
(line 839). -/
def savePrefKeywords : List String :=
  ["remember", "save", "store", "prefer", "my preference", "i like", "i wear"]

/-- Keywords of `/\b(find|search|show|get|looking for)\b/i` (line 844). -/
def searchKeywords : List String :=
  ["find", "search", "show", "get", "looking for"]

/-- Keywords of `/\b(recommend|suggest|what should|advice)\b/i` (line 847). -/
def recommendKeywords : List String :=
  ["recommend", "suggest", "what should", "advice"]

/-- Keywords of `/\b(size|fit|measurement|small|medium|large)\b/i` (line 850). -/
def sizeKeywords : List String :=
  ["size", "fit", "measurement", "small", "medium", "large"]

/-- Keywords of `/\b(add|cart|buy|purchase)\b/i` (line 853). -/
def cartKeywords : List String :=
  ["add", "cart", "buy", "purchase"]

/-- Keywords of `/\b(return|refund|exchange)\b/i` (line 856). -/
def returnKeywords : List String :=
  ["return", "refund", "exchange"]

/-- Keywords of `/\b(order|track|shipping|delivery)\b/i` (line 859). -/
def orderKeywords : List String :=
  ["order", "track", "shipping", "delivery"]

/-- Color vocabulary (line 830). -/
def colorList : List String :=
  ["red", "blue", "green", "black", "white", "yellow", "pink", "purple",
   "orange", "gray", "grey", "navy", "beige", "brown"]

/-- Category vocabulary (line 831). -/
def categoryList : List String :=
  ["dress", "shirt", "pants", "jeans", "jacket", "coat", "shoes", "boots",
   "sneakers", "heels", "skirt", "top", "blouse"]

/-- Occasion vocabulary (line 832). -/
def occasionList : List String :=
  ["wedding", "party", "casual", "formal", "business", "date", "work",
   "weekend", "vacation"]

/-- Size vocabulary (line 833). -/
def sizeList : List String :=
  ["xs", "small", "s", "medium", "m", "large", "l", "xl", "xxl"]

/-- Brand vocabulary (line 834); note the apostrophe in one entry. -/
def brandList : List String :=
  ["nike", "adidas", "zara", "h&m", "gucci", "prada", "versace",
   "calvin klein", "tommy hilfiger", strApos "levi" "s", "levis"]

/-- Extracted entity map (the keys assigned in lines 825-914).
`priceRange` is `(min, max?)`. -/
structure Entities where
  color : Option String := none
  category : Option String := none
  occasion : Option String := none
  size : Option String := none
  brand : Option String := none
  priceRange : Option (Nat × Option Nat) := none
deriving DecidableEq, Repr

/-- Result shape of intent extraction (lines 805-810 and 918-922);
confidence in hundredths. -/
structure IntentAnalysis where
  intent : String
  entities : Entities
  confidence : Nat
deriving DecidableEq, Repr

/-- The keyword-pattern cascade (lines 839-862): the first matching group
determines intent and base confidence, else `general_question` with 0.5. -/
def detectIntent (lowerText : String) : String × Nat :=
  if containsAnyWord lowerText savePrefKeywords then ("save_preference", 85)
  else if containsAnyWord lowerText searchKeywords then ("search_product", 80)
  else if containsAnyWord lowerText recommendKeywords then ("get_recommendations", 85)
  else if containsAnyWord lowerText sizeKeywords then ("ask_about_size", 75)
  else if containsAnyWord lowerText cartKeywords then ("add_to_cart", 80)
  else if containsAnyWord lowerText returnKeywords then ("return_product", 90)
  else if containsAnyWord lowerText orderKeywords then ("track_order", 85)
  else ("general_question", 50)

/-- Whether any of the seven intent keyword patterns fires on the
lower-cased text. -/
def hasAnyIntentKeyword (lowerText : String) : Bool :=
  containsAnyWord lowerText savePrefKeywords ||
  containsAnyWord lowerText searchKeywords ||
  containsAnyWord lowerText recommendKeywords ||
  containsAnyWord lowerText sizeKeywords ||
  containsAnyWord lowerText cartKeywords ||
  containsAnyWord lowerText returnKeywords ||
  containsAnyWord lowerText orderKeywords

/-- Numeric value of an ASCII digit. -/
def digitVal (c : Char) : Nat := c.toNat - 48

/-- The `parseInt` on a nonempty digit string. -/
def parseDigits (l : List Char) : Nat :=
  l.foldl (fun acc c => acc * 10 + digitVal c) 0

/-- After the first number of the price pattern, try the optional group
`(?:\s*-\s*\$?(\d+))?` of `/\$?(\d+)(?:\s*-\s*\$?(\d+))?/` (line 907):
whitespace, a dash, whitespace, an optional dollar sign, then digits. -/
def tryPriceTail (s : List Char) : Option Nat :=
  let s1 := s.dropWhile isWs
  match s1 with
  | '-' :: rest =>
    let s2 := rest.dropWhile isWs
    match s2 with
    | '$' :: r =>
      let ds := r.takeWhile Char.isDigit
      if ds.isEmpty then none else some (parseDigits ds)
    | _ =>
      let ds := s2.takeWhile Char.isDigit
      if ds.isEmpty then none else some (parseDigits ds)
  | _ => none

/-- Try `/\$?(\d+)(?:\s*-\s*\$?(\d+))?/` anchored at the current position:
an optional dollar sign (tried first, as the regex is greedy), then one or
more digits, then the optional range tail. -/
def priceMatchAt (s : List Char) : Option (Nat × Option Nat) :=
  match s with
  | '$' :: r =>
    let ds := r.takeWhile Char.isDigit
    if ds.isEmpty then none
    else some (parseDigits ds, tryPriceTail (r.dropWhile Char.isDigit))
  | c :: r =>
    if c.isDigit then
      let ds := (c :: r).takeWhile Char.isDigit
      some (parseDigits ds, tryPriceTail ((c :: r).dropWhile Char.isDigit))
    else none
  | [] => none

/-- Leftmost match of the price pattern in the text (lines 907-914). -/
def findPriceMatch : List Char → Option (Nat × Option Nat)
  | [] => none
  | c :: rest =>
    match priceMatchAt (c :: rest) with
    | some m => some m
    | none => findPriceMatch rest

/-- The `VoiceAssistant.extractIntentAndEntities` (lines 805-923): the
deterministic keyword/pattern intent detector with entity recognition.
The `userId` parameter of the source is unused by the method body and
omitted.  Entity vocabularies are scanned in order and the first match
wins (the loops `break`); each found entity bumps the confidence, which is
finally capped at 0.95. -/
def extractIntentAndEntities (text : String) : IntentAnalysis :=
  let lowerText := toLowerStr text
  let (detectedIntent, conf0) := detectIntent lowerText
  let color := colorList.find? (fun c => containsSubstr lowerText c)
  let conf1 := if color.isSome then conf0 + 10 else conf0
  let category := categoryList.find? (fun c => containsSubstr lowerText c)
  let conf2 := if category.isSome then conf1 + 10 else conf1
  let occasion := occasionList.find? (fun c => containsSubstr lowerText c)
  let conf3 := if occasion.isSome then conf2 + 10 else conf2
  let size := sizeList.find? (fun c => containsSubstr lowerText c)
  let conf4 := if size.isSome then conf3 + 5 else conf3
  let brand := brandList.find? (fun c => containsSubstr lowerText c)
  let conf5 := if brand.isSome then conf4 + 10 else conf4
  let price := findPriceMatch lowerText.data
  let conf6 := if price.isSome then conf5 + 5 else conf5
  { intent := detectedIntent
    entities :=
      { color := color
        category := category
        occasion := occasion
        size := size.map toUpperStr
        brand := brand
        priceRange := price }
    confidence := min 95 conf6 }

-- ======================================================================
-- VoiceAssistant.ts : preference detection and merging
-- ======================================================================

/-- First `some` in a list of options (regex alternation: alternatives are
tried in order, each with the whole rest of the pattern). -/
def firstSome {α : Type} : List (Option α) → Option α
  | [] => none
  | some x :: _ => some x
  | none :: t => firstSome t

/-- The `[\w\s&]` : the brand character class of the size pattern (line 675). -/
def isBrandChar (c : Char) : Bool := isWordChar c || isWs c || c == '&'

/-- The expansions of `(?:i'?m|i am|wear|my size is|i wear)` in order
(`i'?m` is greedy, so the apostrophe variant is tried first). -/
def sizeAlternatives : List (List Char) :=
  [(strApos "i" "m").data, "im".data, "i am".data, "wear".data,
   "my size is".data, "i wear".data]

/-- The `(?:in|for|with)\s+([\w\s&]+)` anchored at `s` for one literal
preposition: consume the literal, a nonempty whitespace run, then a maximal
nonempty `[\w\s&]` run.  If the class run after the full whitespace run is
empty, `\s+` gives one whitespace character back to the class (the regex
engine backtracks), which requires at least two whitespace characters. -/
def tryPrepBrand (lit : List Char) (s : List Char) : Option (List Char) :=
  match dropLit lit s with
  | none => none
  | some r =>
    match r with
    | c :: _ =>
      if isWs c then
        let wsRun := r.takeWhile isWs
        let rest := r.dropWhile isWs
        let cls := rest.takeWhile isBrandChar
        if !cls.isEmpty then some cls
        else if wsRun.length ≥ 2 then wsRun.getLast?.map (fun w => [w])
        else none
      else none
    | [] => none

/-- The `(\w+)\s+(?:in|for|with)\s+([\w\s&]+)` anchored at `s`: the size word,
whitespace, then the preposition alternatives in order.  Returns
(size characters, raw brand characters). -/
def matchSizeCore (s : List Char) : Option (List Char × List Char) :=
  let w := s.takeWhile isWordChar
  if w.isEmpty then none
  else
    match ws1 (s.dropWhile isWordChar) with
    | none => none
    | some s2 =>
      (firstSome (["in".data, "for".data, "with".data].map
        (fun lit => tryPrepBrand lit s2))).map (fun brand => (w, brand))

/-- The `\s+(?:a\s+)?` followed by the core, with backtracking over the
optional `a` group: the group is tried first, and on failure of the rest
the match is retried without it. -/
def matchSizeRest (s : List Char) : Option (List Char × List Char) :=
  match ws1 s with
  | none => none
  | some s1 =>
    let withA :=
      match s1 with
      | 'a' :: r =>
        match ws1 r with
        | some s2 => matchSizeCore s2
        | none => none
      | _ => none
    match withA with
    | some res => some res
    | none => matchSizeCore s1

/-- Leftmost match of the size pattern
`/\b(?:i'?m|i am|wear|my size is|i wear)\s+(?:a\s+)?(\w+)\s+(?:in|for|with)\s+([\w\s&]+)/i`
(line 675): scan positions left to right; at each position with a word
boundary before it, try the leading alternatives in order, each followed by
the rest of the pattern. -/
def matchSizeFrom : Bool → List Char → Option (List Char × List Char)
  | _, [] => none
  | prevWord, c :: rest =>
    let here :=
      if prevWord then none
      else
        firstSome (sizeAlternatives.map (fun alt =>
          match dropLit alt (c :: rest) with
          | some r => matchSizeRest r
          | none => none))
    match here with
    | some res => some res
    | none => matchSizeFrom (isWordChar c) rest

/-- The size pattern applied to the lower-cased text, returning the two
capture groups (size, raw brand) as strings. -/
def sizePatternMatch (lowerText : String) : Option (String × String) :=
  (matchSizeFrom false lowerText.data).map (fun p => (String.mk p.1, String.mk p.2))

/-- Leading alternatives `(?:use|prefer|want|like)` of the voice pattern
(line 691). -/
def voiceAlt1 : List (List Char) :=
  ["use".data, "prefer".data, "want".data, "like".data]

/-- Middle alternatives `(?:male|female|man|woman|rachel|george|adam|etc)`
of the voice pattern. -/
def voiceAlt2 : List (List Char) :=
  ["male".data, "female".data, "man".data, "woman".data, "rachel".data,
   "george".data, "adam".data, "etc".data]

/-- The `\s+voice` anchored at `s`. -/
def matchWsVoice (s : List Char) : Bool :=
  match ws1 s with
  | some r => (dropLit "voice".data r).isSome
  | none => false

/-- The `[''s]?\s+voice` anchored at `s` (the optional class holds an
apostrophe and `s`), with backtracking over the optional character. -/
def matchVoiceAfterAlt2 (s : List Char) : Bool :=
  (match s with
   | c :: r => if c == apos || c == 's' then matchWsVoice r else false
   | [] => false) || matchWsVoice s

/-- The `\s+(?:a\s+)?(?:male|...|etc)[''s]?\s+voice` anchored at `s`, with
backtracking over the optional `a` group. -/
def matchVoiceRest (s : List Char) : Bool :=
  match ws1 s with
  | none => false
  | some s1 =>
    let core := fun (t : List Char) =>
      voiceAlt2.any (fun alt =>
        match dropLit alt t with
        | some r => matchVoiceAfterAlt2 r
        | none => false)
    (match s1 with
     | 'a' :: r =>
       match ws1 r with
       | some s2 => core s2
       | none => false
     | _ => false) || core s1

/-- Scan for the voice pattern
`/\b(?:use|prefer|want|like)\s+(?:a\s+)?(?:male|female|man|woman|rachel|george|adam|etc)[''s]?\s+voice/i`
(line 691) anywhere in the text. -/
def matchVoiceFrom : Bool → List Char → Bool
  | _, [] => false
  | prevWord, c :: rest =>
    (!prevWord && voiceAlt1.any (fun alt =>
        match dropLit alt (c :: rest) with
        | some r => matchVoiceRest r
        | none => false)) ||
      matchVoiceFrom (isWordChar c) rest

/-- The `voicePattern.test(lowerText)`. -/
def voicePatternTest (lowerText : String) : Bool :=
  matchVoiceFrom false lowerText.data

/-- The `UserVoicePreferences` (`VoiceAssistant.ts` lines 34-40).  All fields
are optional; the size map is brand → size as an ordered association list
(a JS object). -/
structure UserVoicePreferences where
  voicePreference : Option String := none
  sizePreferences : Option (List (String × String)) := none
  colorPreferences : Option (List String) := none
  stylePreferences : Option (List String) := none
  brandPreferences : Option (List String) := none
deriving DecidableEq, Repr

/-- The empty preference object `{}`. -/
def emptyPrefs : UserVoicePreferences := {}

/-- The merge performed by `saveUserPreferences` (lines 560-580):
`{...existing, ...preferences}` decides `voicePreference`; the size map is
merged key-wise with the delta winning (`{...existing.sizePreferences,
...preferences.sizePreferences}`, always producing an object); the three
list fields are concatenated and deduplicated keeping first occurrences
(always producing a list). -/
def mergePreferences (existing delta : UserVoicePreferences) : UserVoicePreferences :=
  { voicePreference := oor delta.voicePreference existing.voicePreference
    sizePreferences :=
      some (mergeObj (existing.sizePreferences.getD []) (delta.sizePreferences.getD []))
    colorPreferences :=
      some (dedupFirst ((existing.colorPreferences.getD []) ++ (delta.colorPreferences.getD [])))
    stylePreferences :=
      some (dedupFirst ((existing.stylePreferences.getD []) ++ (delta.stylePreferences.getD [])))
    brandPreferences :=
      some (dedupFirst ((existing.brandPreferences.getD []) ++ (delta.brandPreferences.getD []))) }

/-- The `detectPreferencesFromQuery` (lines 666-723): size-for-brand from the
size pattern (size upper-cased, brand trimmed) or from extracted entities;
voice id from the voice pattern plus a name check; color/style/brand lists
from single entities.  Returns `none` when nothing was detected. -/
def detectPreferencesFromQuery (text : String) (ia : IntentAnalysis) :
    Option UserVoicePreferences :=
  let lowerText := toLowerStr text
  let sizeDetected : Option (List (String × String)) :=
    match sizePatternMatch lowerText with
    | some (sizeRaw, brandRaw) => some [(trimStr brandRaw, toUpperStr sizeRaw)]
    | none =>
      if strTruthy ia.entities.size && strTruthy ia.entities.brand then
        some [(ia.entities.brand.getD "", ia.entities.size.getD "")]
      else none
  let voicePref : Option String :=
    if voicePatternTest lowerText then
      if containsSubstr lowerText "rachel" then some "21m00Tcm4TlvDq8ikWAM"
      else if containsSubstr lowerText "george" then some "ThT5KcBeYPX3keUQqHPh"
      else none
    else none
  let colorPrefs : Option (List String) :=
    if strTruthy ia.entities.color then some [ia.entities.color.getD ""] else none
  let stylePrefs : Option (List String) :=
    if strTruthy ia.entities.category then some [ia.entities.category.getD ""] else none
  let brandPrefs : Option (List String) :=
    if strTruthy ia.entities.brand then some [ia.entities.brand.getD ""] else none
  let hasPreferences := sizeDetected.isSome || voicePref.isSome ||
    colorPrefs.isSome || stylePrefs.isSome || brandPrefs.isSome
  if hasPreferences then
    some { voicePreference := voicePref
           sizePreferences := sizeDetected
           colorPreferences := colorPrefs
           stylePreferences := stylePrefs
           brandPreferences := brandPrefs }
  else none

/-- Profile preference sub-object (`userProfile.preferences`, lines
626-628). -/
structure ProfilePrefs where
  favoriteColors : Option (List String) := none
  preferredStyles : Option (List String) := none
  preferredBrands : Option (List String) := none
deriving DecidableEq, Repr

/-- The slice of a stored user profile read by `getUserVoicePreferences`
(lines 621-629) and `startConversation` (line 90). -/
structure UserProfileV where
  voicePreference : Option String := none
  sizePreferences : Option (List (String × String)) := none
  preferences : Option ProfilePrefs := none
deriving DecidableEq, Repr

/-- Preference storage for one user: the fast-cache entry
`voice-preferences:userId`, the durable entry `userId-voice-preferences`
and the profile entry `userId`. -/
structure PrefState where
  cache : Option UserVoicePreferences := none
  memory : Option UserVoicePreferences := none
  profile : Option UserProfileV := none
deriving DecidableEq, Repr

/-- Environment of one `getUserVoicePreferences` call (lines 604-641):
each of the three lookups may throw (`Except.error ()`) or find nothing. -/
structure PrefLookupEnv where
  cache : Except Unit (Option UserVoicePreferences)
  memory : Except Unit (Option UserVoicePreferences)
  profile : Except Unit (Option UserProfileV)
deriving DecidableEq, Repr

/-- The `getUserVoicePreferences` (lines 604-641): cache first, then durable
memory, then a derivation from the user profile (guarded by the truthiness
of `voicePreference` or the presence of `preferences`), else `{}`.  Any
thrown lookup error is caught by the surrounding try/catch, which also
returns `{}` — the function never throws, which is why its model is total.
(The cache-refill writes on the memory/profile paths are side effects not
visible in the returned value.) -/
def getUserVoicePreferencesR (env : PrefLookupEnv) : UserVoicePreferences :=
  match env.cache with
  | Except.error _ => emptyPrefs
  | Except.ok (some c) => c
  | Except.ok none =>
    match env.memory with
    | Except.error _ => emptyPrefs
    | Except.ok (some m) => m
    | Except.ok none =>
      match env.profile with
      | Except.error _ => emptyPrefs
      | Except.ok none => emptyPrefs
      | Except.ok (some p) =>
        if strTruthy p.voicePreference || p.preferences.isSome then
          { voicePreference := p.voicePreference
            sizePreferences := p.sizePreferences
            colorPreferences := p.preferences.bind ProfilePrefs.favoriteColors
            stylePreferences := p.preferences.bind ProfilePrefs.preferredStyles
            brandPreferences := p.preferences.bind ProfilePrefs.preferredBrands }
        else emptyPrefs

/-- Lookup environment of a storage state in which no lookup throws. -/
def prefLookupOf (s : PrefState) : PrefLookupEnv :=
  { cache := Except.ok s.cache
    memory := Except.ok s.memory
    profile := Except.ok s.profile }

/-- The `getUserVoicePreferences` against a concrete storage state. -/
def getUserVoicePreferencesS (s : PrefState) : UserVoicePreferences :=
  getUserVoicePreferencesR (prefLookupOf s)

/-- The `getUserPreferences` (lines 941-943): the public alias. -/
def getUserPreferences (s : PrefState) : UserVoicePreferences :=
  getUserVoicePreferencesS s

/-- The `saveUserPreferences` (lines 551-599): read the existing preferences,
merge the delta in, and write the result to both the durable store and the
cache.  (The append to the preferences log carries no further state the
claims inspect.) -/
def saveUserPreferences (s : PrefState) (delta : UserVoicePreferences) : PrefState :=
  let existing := getUserVoicePreferencesS s
  let updated := mergePreferences existing delta
  { s with memory := some updated, cache := some updated }

/-- JS `slice(-limit)` on an array: the last `limit` elements; note that
`-0 === 0`, so limit `0` returns the whole array. -/
def sliceLast {α : Type} (l : List α) (k : Nat) : List α :=
  if k = 0 then l else l.drop (l.length - k)

/-- The `getConversationHistory` (lines 928-936): read the transcript log
(`none` models both an absent and a non-array value, which yield `[]`) and
return `history.slice(-limit)`. -/
def getConversationHistory {α : Type} (log : Option (List α)) (limit : Nat) : List α :=
  match log with
  | some h => sliceLast h limit
  | none => []

-- ======================================================================
-- VoiceAssistant.ts : conversation state and turn processing
-- ======================================================================

/-- The `DEFAULT_VOICE_ID` (line 51). -/
def DEFAULT_VOICE_ID : String := "21m00Tcm4TlvDq8ikWAM"

/-- The `DEFAULT_MODEL` (line 52). -/
def DEFAULT_MODEL : String := "eleven_multilingual_v2"

/-- The `VoiceSettings` (lines 25-32); the rational parameters are in
hundredths. -/
structure VoiceSettings where
  voiceId : String
  modelId : String
  stability : Nat
  similarityBoost : Nat
  style : Option Nat := none
  useSpeakerBoost : Option Bool := none
deriving DecidableEq, Repr

/-- The fields of the untyped `context` record that the code reads or
writes (lines 113-116, 253-262, 276-284, 403-410). -/
structure ConvContext where
  sessionStart : Option Nat := none
  lastQuery : Option String := none
  lastIntent : Option String := none
  lastEntities : Option Entities := none
  timestamp : Option Nat := none
  confidence : Option Nat := none
  messageCount : Option Nat := none
  sttSource : Option STTSource := none
deriving DecidableEq, Repr

/-- The `ConversationState` (lines 15-23). -/
structure ConversationState where
  conversationId : String
  userId : String
  context : ConvContext
  lastMessage : Option String := none
  lastResponse : Option String := none
  voiceSettings : Option VoiceSettings := none
  preferences : Option UserVoicePreferences := none
deriving DecidableEq, Repr

/-- Speaker role of a transcript entry. -/
inductive Speaker where
  | user
  | assistant
deriving DecidableEq, Repr

/-- An entry of the durable conversation log `userId-conversation`
(appended at lines 294-307). -/
structure TranscriptEntry where
  message : String
  role : Speaker
  intent : Option String := none
deriving DecidableEq, Repr

/-- Modelled from the spec: outcomes of the language-understanding
provider.  `LLMService.ts` (the `llmService` imported at line 12 of
`VoiceAssistant.ts`) is not under `src/`; per spec §4.3/§4.4 it returns an
intent analysis and a generated response, each of which can fail.  The
outcomes are environment data here; the claims constrain them through
hypotheses. -/
structure LLMEnv where
  extractOutcome : Except Unit IntentAnalysis
  generateOutcome : Except Unit String
deriving DecidableEq, Repr

/-- Modelled from the spec: outcome of the speech-synthesis resolver.
`TTSService.ts` is not under `src/`; per spec §4.5 the whole synthesis
step (cache, local synthesizer, remote provider, SDK fallback) either
yields audio bytes or fails.  `generateSpeechWithRetry` (lines 430-475)
only adds one more SDK fallback inside the same step, so a single outcome
models the step. -/
structure TTSEnv where
  ttsOutcome : Except Unit (List Nat)
deriving DecidableEq, Repr

/-- The world a conversation turn reads and writes for one user: the
cached conversation state `conversation:userId`, the preference storage,
and the durable conversation log. -/
structure VoiceWorld where
  convState : Option ConversationState := none
  prefState : PrefState := {}
  conversationLog : Option (List TranscriptEntry) := none
deriving DecidableEq, Repr

/-- Result record of `processVoiceInput` (line 146). -/
structure TurnResult where
  text : String
  audio : Option (List Nat) := none
  intent : Option String := none
  entities : Option Entities := none
  preferencesSaved : Bool := false
deriving DecidableEq, Repr

/-- Result record of `processTextQuery` (lines 341-346). -/
structure TextTurnResult where
  text : String
  intent : Option String := none
  entities : Option Entities := none
  audio : Option (List Nat) := none
deriving DecidableEq, Repr

/-- Modelled from the spec: `getContextPrompt` is called at line 154 of
`VoiceAssistant.ts` but defined nowhere in the sources; spec §4.2 says the
transcription context prompt is "recent conversation text, used to bias
recognition", modelled as the last five transcript messages joined by
spaces.  (The prompt does not influence any modelled outcome.) -/
def getContextPrompt (log : Option (List TranscriptEntry)) : String :=
  String.intercalate " " ((getConversationHistory log 5).map TranscriptEntry.message)

/-- The transcription options built at lines 153-155: a context prompt
exactly when a user id is supplied. -/
def voicePromptOpts (userId : Option String) (log : Option (List TranscriptEntry)) :
    STTOptions :=
  { prompt :=
      match userId with
      | some _ => some (getContextPrompt log)
      | none => none }

/-- JS spread `{...state.preferences, ...preferencesToSave}` (lines
207-210 and 264-267): field-wise overwrite by the fields present in the
delta.  Unlike `mergePreferences` this replaces the size map and the lists
wholesale. -/
def spreadPrefs (a b : UserVoicePreferences) : UserVoicePreferences :=
  { voicePreference := oor b.voicePreference a.voicePreference
    sizePreferences := oor b.sizePreferences a.sizePreferences
    colorPreferences := oor b.colorPreferences a.colorPreferences
    stylePreferences := oor b.stylePreferences a.stylePreferences
    brandPreferences := oor b.brandPreferences a.brandPreferences }

/-- The acknowledgement guard at line 214:
`preferencesToSave.sizePreferences || preferencesToSave.voicePreference`. -/
def ackCond (p : UserVoicePreferences) : Bool :=
  p.sizePreferences.isSome || strTruthy p.voicePreference

/-- The acknowledgement clause appended at line 215. -/
def ackText : String := strApos " I" "ve saved that preference for you!"

/-- One attempt of `processVoiceInput` (the `try` body, lines 151-316), as
written.  Two slips make every attempt throw before reaching the response
stage: with a `userId`, the call `this.getContextPrompt(userId)` at line
154 is a TypeError because no such method exists anywhere in the sources;
without one, line 177 reads `conversationHistory` before its `const`
declaration at line 185, a ReferenceError (and a TS2448 compile error).
Both are modelled as `Except.error ()` at the corresponding program
point. -/
def processVoiceAttempt (sttEnv : STTEnv) (buf : List Nat)
    (userId : Option String) (_w : VoiceWorld) :
    Except Unit (TurnResult × VoiceWorld) :=
  match userId with
  | some _ => Except.error ()
  | none =>
    match (transcribe sttEnv buf { prompt := none }).1 with
    | Except.error _ => Except.error ()
    | Except.ok sttResult =>
      if sttResult.text == "" || sttResult.text == fallbackText then Except.error ()
      else Except.error ()

/-- The retry loop of `processVoiceInput` (lines 150-330): up to
`MAX_RETRIES = 3` attempts, rethrowing the last error.  An attempt that
throws performs no modelled state change, so the loop retries a fixed
outcome (the sleeps between attempts carry no state). -/
def retryN {α : Type} (n : Nat) (f : Except Unit α) : Except Unit α :=
  match n with
  | 0 => Except.error ()
  | Nat.succ m =>
    match f with
    | Except.ok r => Except.ok r
    | Except.error _ => retryN m f

/-- The `processVoiceInput` (lines 142-331) as written: three attempts of the
faulty body. -/
def processVoiceInput (sttEnv : STTEnv) (buf : List Nat)
    (userId : Option String) (w : VoiceWorld) :
    Except Unit (TurnResult × VoiceWorld) :=
  retryN 3 (processVoiceAttempt sttEnv buf userId w)

/-- One attempt of `processVoiceInput` with the two slips corrected in the
minimal intended way: the conversation history is fetched before the
intent extraction that consumes it (as `processTextQuery` does at lines
360-369), and the context prompt comes from the spec-modelled
`getContextPrompt`.  Everything else follows lines 151-316 in order:
transcribe; reject empty/sentinel text; fetch state; extract intent
(provider outcome); detect preferences; generate response (provider
outcome); save detected preferences and append the acknowledgement when
the delta has a size or voice preference; synthesize (failure swallowed,
lines 241-247); update or create the cached conversation state with an
incremented `messageCount` (lines 249-290); append the two transcript
entries (lines 292-308); return the result record (lines 310-316). -/
def processVoiceAttemptIntended (sttEnv : STTEnv) (llm : LLMEnv) (tts : TTSEnv)
    (buf : List Nat) (userId : Option String) (w : VoiceWorld) (now : Nat) :
    Except Unit (TurnResult × VoiceWorld) :=
  match (transcribe sttEnv buf (voicePromptOpts userId w.conversationLog)).1 with
  | Except.error _ => Except.error ()
  | Except.ok sttResult =>
    if sttResult.text == "" || sttResult.text == fallbackText then Except.error ()
    else
      let state : Option ConversationState :=
        match userId with
        | some _ => w.convState
        | none => none
      match llm.extractOutcome with
      | Except.error _ => Except.error ()
      | Except.ok ia =>
        let toSave := detectPreferencesFromQuery sttResult.text ia
        match llm.generateOutcome with
        | Except.error _ => Except.error ()
        | Except.ok gen =>
          let saved := toSave.isSome && userId.isSome
          let prefState2 :=
            match toSave, userId with
            | some p, some _ => saveUserPreferences w.prefState p
            | _, _ => w.prefState
          let responseText :=
            match toSave, userId with
            | some p, some _ => if ackCond p then gen ++ ackText else gen
            | _, _ => gen
          let audio :=
            match tts.ttsOutcome with
            | Except.ok a => some a
            | Except.error _ => none
          let newConvState : Option ConversationState :=
            match state, userId with
            | some s, some _ =>
              some { s with
                lastMessage := some sttResult.text
                lastResponse := some responseText
                context := { s.context with
                  lastQuery := some sttResult.text
                  lastIntent := some ia.intent
                  lastEntities := some ia.entities
                  timestamp := some now
                  confidence := some ia.confidence
                  messageCount := some ((s.context.messageCount.getD 0) + 1)
                  sttSource := some sttResult.source }
                preferences :=
                  if saved then
                    some (spreadPrefs (s.preferences.getD emptyPrefs) (toSave.getD emptyPrefs))
                  else s.preferences }
            | none, some uid =>
              some { conversationId := "conv_" ++ uid ++ "_" ++ toString now
                     userId := uid
                     context := { lastQuery := some sttResult.text
                                  lastIntent := some ia.intent
                                  lastEntities := some ia.entities
                                  timestamp := some now
                                  confidence := some ia.confidence
                                  messageCount := some 1
                                  sttSource := some sttResult.source }
                     lastMessage := some sttResult.text
                     lastResponse := some responseText
                     preferences := toSave }
            | _, none => w.convState
          let newLog :=
            match userId with
            | some _ => some ((w.conversationLog.getD []) ++
                [{ message := sttResult.text, role := Speaker.user, intent := some ia.intent },
                 { message := responseText, role := Speaker.assistant }])
            | none => w.conversationLog
          Except.ok
            ({ text := responseText
               audio := audio
               intent := some ia.intent
               entities := some ia.entities
               preferencesSaved := saved },
             { convState := newConvState
               prefState := prefState2
               conversationLog := newLog })

/-- The `processVoiceInput` with the intended attempt body, under the same
three-attempt retry loop. -/
def processVoiceInputIntended (sttEnv : STTEnv) (llm : LLMEnv) (tts : TTSEnv)
    (buf : List Nat) (userId : Option String) (w : VoiceWorld) (now : Nat) :
    Except Unit (TurnResult × VoiceWorld) :=
  retryN 3 (processVoiceAttemptIntended sttEnv llm tts buf userId w now)

/-- The `processTextQuery` (lines 337-424): extract intent and generate a
response (provider errors are rethrown by the outer catch); synthesize
only when audio is preferred, swallowing synthesis errors (lines 382-397);
update the cached conversation state without touching `messageCount`
(lines 399-412). -/
def processTextQuery (llm : LLMEnv) (tts : TTSEnv) (query : String)
    (userId : Option String) (audioPreferred : Bool) (w : VoiceWorld) (now : Nat) :
    Except Unit (TextTurnResult × VoiceWorld) :=
  let state : Option ConversationState :=
    match userId with
    | some _ => w.convState
    | none => none
  match llm.extractOutcome with
  | Except.error _ => Except.error ()
  | Except.ok ia =>
    match llm.generateOutcome with
    | Except.error _ => Except.error ()
    | Except.ok gen =>
      let audio :=
        if audioPreferred then
          match tts.ttsOutcome with
          | Except.ok a => some a
          | Except.error _ => none
        else none
      let newConvState : Option ConversationState :=
        match state, userId with
        | some s, some _ =>
          some { s with
            lastMessage := some query
            lastResponse := some gen
            context := { s.context with
              lastQuery := some query
              lastIntent := some ia.intent
              lastEntities := some ia.entities
              timestamp := some now
              confidence := some ia.confidence } }
        | _, _ => w.convState
      Except.ok
        ({ text := gen
           intent := some ia.intent
           entities := some ia.entities
           audio := audio },
         { w with convState := newConvState })

/-- The `startConversation` (lines 80-133): read the profile and preferences,
pick the voice id by JS `||` over preference, profile and default, and
build the fresh state with `messageCount: 0` (line 115).  The returned
state is also what is written to the cache. -/
def startConversation (userId : String) (now : Nat) (ps : PrefState) :
    ConversationState :=
  let preferences := getUserVoicePreferencesS ps
  let profileVoice : Option String := ps.profile.bind UserProfileV.voicePreference
  let voiceId :=
    (orTruthy preferences.voicePreference
      (orTruthy profileVoice (some DEFAULT_VOICE_ID))).getD DEFAULT_VOICE_ID
  { conversationId := "conv_" ++ userId ++ "_" ++ toString now
    userId := userId
    context := { sessionStart := some now, messageCount := some 0 }
    voiceSettings := some
      { voiceId := voiceId
        modelId := DEFAULT_MODEL
        stability := 50
        similarityBoost := 80
        style := some 50
        useSpeakerBoost := some true }
    preferences := some preferences }

/-- The cached conversation state after a (corrected) voice turn; a thrown
turn performs no state write. -/
def convStateAfterVoice (sttEnv : STTEnv) (llm : LLMEnv) (tts : TTSEnv)
    (buf : List Nat) (userId : Option String) (w : VoiceWorld) (now : Nat) :
    Option ConversationState :=
  match processVoiceInputIntended sttEnv llm tts buf userId w now with
  | Except.ok (_, w') => w'.convState
  | Except.error _ => w.convState

/-- The cached conversation state after a text turn; a thrown turn
performs no state write. -/
def convStateAfterText (llm : LLMEnv) (tts : TTSEnv) (query : String)
    (userId : Option String) (audioPreferred : Bool) (w : VoiceWorld) (now : Nat) :
    Option ConversationState :=
  match processTextQuery llm tts query userId audioPreferred w now with
  | Except.ok (_, w') => w'.convState
  | Except.error _ => w.convState

/-- The turn counter of a cached conversation state (absent state or
absent counter count as 0, as in `state.context.messageCount || 0`). -/
def msgCount : Option ConversationState → Nat
  | some s => s.context.messageCount.getD 0
  | none => 0

/-- A preference lookup that fails or finds nothing. -/
def lookupEmpty {α : Type} (e : Except Unit (Option α)) : Prop :=
  e = Except.error () ∨ e = Except.ok none

-- ======================================================================
-- Sanity checks of the embedding on concrete inputs
-- ======================================================================

example :
    (transcribe
      { openaiConfigured := true, elevenConfigured := false, elevenHasSTT := false
        whisper := Except.ok { text := "hi" }, eleven := Except.error () }
      [1, 2] {}).1 =
    Except.ok { text := "hi", confidence := some 90, source := STTSource.openai } := by
  decide

example :
    (transcribe
      { openaiConfigured := false, elevenConfigured := false, elevenHasSTT := false
        whisper := Except.error (), eleven := Except.error () }
      [] {}).1 = Except.ok fallbackSTTResult := by
  decide

example : (extractIntentAndEntities "find blue dresses").intent = "search_product" := by decide

example : (extractIntentAndEntities "find blue dresses").entities.color = some "blue" := by decide

example : (extractIntentAndEntities "find blue dresses").entities.category = some "dress" := by decide

example : (extractIntentAndEntities "").intent = "general_question" := by decide

example : (extractIntentAndEntities "zzq @!#").intent = "general_question" := by decide

example : (extractIntentAndEntities "my preferences").intent = "general_question" := by decide

example : (extractIntentAndEntities "under $30 - $50 please").entities.priceRange = some (30, some 50) := by decide

example :
    detectPreferencesFromQuery "i wear a medium in acme"
      { intent := "save_preference", entities := {}, confidence := 85 } =
    some { sizePreferences := some [("acme", "MEDIUM")] } := by decide

example :
    detectPreferencesFromQuery (strApos "i" "m a medium in acme")
      { intent := "save_preference", entities := {}, confidence := 85 } =
    some { sizePreferences := some [("acme", "MEDIUM")] } := by decide

example :
    detectPreferencesFromQuery "find blue dresses"
      (extractIntentAndEntities "find blue dresses") =
    some { colorPreferences := some ["blue"], stylePreferences := some ["dress"] } := by decide

example :
    detectPreferencesFromQuery "hello there"
      { intent := "general_question", entities := {}, confidence := 50 } = none := by decide

example :
    detectPreferencesFromQuery "please use rachel voice"
      { intent := "general_question", entities := {}, confidence := 50 } =
    some { voicePreference := some "21m00Tcm4TlvDq8ikWAM" } := by decide

example : getConversationHistory (some [1, 2, 3, 4]) 2 = [3, 4] := by decide

example : getConversationHistory (none : Option (List Nat)) 5 = [] := by decide

example :
    processVoiceInput
      { openaiConfigured := true, elevenConfigured := false, elevenHasSTT := false
        whisper := Except.ok { text := "find blue dresses" }, eleven := Except.error () }
      [1, 2, 3] (some "u1") {} = Except.error () := by decide

-- ======================================================================
-- General lemmas
-- ======================================================================

theorem retryN_three {α : Type} (f : Except Unit α) : retryN 3 f = f := by
  cases f with
  | ok r => rfl
  | error e => cases e; rfl

theorem alookup_append (a b : List (String × String)) (k : String) :
    alookup (a ++ b) k = oor (alookup a k) (alookup b k) := by
  induction a with
  | nil => simp [alookup, oor]
  | cons h t ih =>
    obtain ⟨k', v⟩ := h
    by_cases hk : k' == k
    · simp [alookup, hk, oor]
    · simp only [List.cons_append, alookup, hk]
      simpa using ih

theorem alookup_mapOverride (e d : List (String × String)) (k : String) :
    alookup (e.map (fun p => (p.1, (alookup d p.1).getD p.2))) k =
      (alookup e k).map (fun v => (alookup d k).getD v) := by
  induction e with
  | nil => simp [alookup]
  | cons h t ih =>
    obtain ⟨k', v⟩ := h
    by_cases hk : k' == k
    · have hk' : k' = k := by simpa using hk
      subst hk'
      simp [alookup, hk]
    · simp [alookup, hk, ih]

theorem alookup_filterNone (e d : List (String × String)) (k : String) :
    alookup (d.filter (fun p => (alookup e p.1).isNone)) k =
      if (alookup e k).isNone then alookup d k else none := by
  induction d with
  | nil => simp [alookup]
  | cons h t ih =>
    obtain ⟨k', v⟩ := h
    by_cases hk : k' == k
    · have hk' : k' = k := by simpa using hk
      subst hk'
      by_cases he : (alookup e k').isNone
      · simp [alookup, hk, he, List.filter]
      · simp [alookup, hk, he, List.filter, ih]
    · by_cases he : (alookup e k').isNone
      · simp [alookup, hk, he, List.filter, ih]
      · simp [alookup, hk, he, List.filter, ih]

theorem alookup_mergeObj (e d : List (String × String)) (k : String) :
    alookup (mergeObj e d) k = oor (alookup d k) (alookup e k) := by
  rw [mergeObj, alookup_append, alookup_mapOverride, alookup_filterNone]
  cases he : alookup e k with
  | none => cases hd : alookup d k <;> simp [oor, he, hd]
  | some v => cases hd : alookup d k <;> simp [oor, he, hd]

theorem alookup_isSome_of_mem {l : List (String × String)} {k : String} {v : String}
    (h : (k, v) ∈ l) : (alookup l k).isSome := by
  induction l with
  | nil => simp at h
  | cons p t ih =>
    obtain ⟨k', v'⟩ := p
    rcases List.mem_cons.mp h with h1 | h1
    · obtain ⟨rfl, rfl⟩ := Prod.mk.injEq .. ▸ h1
      simp [alookup]
    · by_cases hk : k' == k
      · simp [alookup, hk]
      · simpa [alookup, hk] using ih h1

theorem alookup_of_nodupKeys {l : List (String × String)} {k v : String}
    (hn : (l.map Prod.fst).Nodup) (h : (k, v) ∈ l) : alookup l k = some v := by
  induction l with
  | nil => simp at h
  | cons p t ih =>
    obtain ⟨k', v'⟩ := p
    simp only [List.map_cons, List.nodup_cons] at hn
    rcases List.mem_cons.mp h with h1 | h1
    · obtain ⟨rfl, rfl⟩ := Prod.mk.injEq .. ▸ h1
      simp [alookup]
    · by_cases hk : k' == k
      · exfalso
        have hk' : k' = k := by simpa using hk
        subst hk'
        exact hn.1 (List.mem_map.mpr ⟨(k', v), h1, rfl⟩)
      · simpa [alookup, hk] using ih hn.2 h1

theorem list_map_self {α : Type} (l : List α) (f : α → α) (h : ∀ x ∈ l, f x = x) :
    l.map f = l := by
  induction l with
  | nil => rfl
  | cons x t ih =>
    simp only [List.map_cons, h x (List.mem_cons_self x t)]
    rw [ih (fun y hy => h y (List.mem_cons_of_mem x hy))]

theorem list_filter_nil {α : Type} (l : List α) (p : α → Bool)
    (h : ∀ x ∈ l, p x = false) : l.filter p = [] := by
  induction l with
  | nil => rfl
  | cons x t ih =>
    simp only [List.filter, h x (List.mem_cons_self x t)]
    exact ih (fun y hy => h y (List.mem_cons_of_mem x hy))

theorem mergeObj_absorb (e d : List (String × String))
    (hd : (d.map Prod.fst).Nodup) :
    mergeObj (mergeObj e d) d = mergeObj e d := by
  have hfilter : d.filter (fun p => (alookup (mergeObj e d) p.1).isNone) = [] := by
    refine list_filter_nil _ _ (fun p hp => ?_)
    obtain ⟨k, v⟩ := p
    have hs : (alookup d k).isSome := alookup_isSome_of_mem hp
    rw [alookup_mergeObj]
    cases hdk : alookup d k with
    | none => rw [hdk] at hs; simp at hs
    | some c => simp [oor, hdk]
  have hmap :
      (mergeObj e d).map (fun p => (p.1, (alookup d p.1).getD p.2)) = mergeObj e d := by
    refine list_map_self _ _ (fun p hp => ?_)
    obtain ⟨k, v⟩ := p
    rcases List.mem_append.mp hp with h1 | h1
    · obtain ⟨⟨k0, v0⟩, hq, heq⟩ := List.mem_map.mp h1
      obtain ⟨rfl, rfl⟩ := Prod.mk.injEq .. ▸ heq
      cases hdk : alookup d k0 <;> simp [hdk]
    · have hmem : (k, v) ∈ d := List.mem_of_mem_filter h1
      simp [alookup_of_nodupKeys hd hmem]
  calc mergeObj (mergeObj e d) d
      = (mergeObj e d).map (fun p => (p.1, (alookup d p.1).getD p.2)) ++
          d.filter (fun p => (alookup (mergeObj e d) p.1).isNone) := rfl
    _ = mergeObj e d := by rw [hfilter, hmap, List.append_nil]

theorem mem_dedupAux {x : String} :
    ∀ (l seen : List String), x ∈ dedupAux seen l ↔ x ∈ l ∧ x ∉ seen := by
  intro l
  induction l with
  | nil => intro seen; simp [dedupAux]
  | cons y t ih =>
    intro seen
    by_cases hy : y ∈ seen
    · rw [dedupAux, if_pos hy, ih]
      constructor
      · rintro ⟨h1, h2⟩
        exact ⟨List.mem_cons_of_mem y h1, h2⟩
      · rintro ⟨h1, h2⟩
        rcases List.mem_cons.mp h1 with rfl | h1
        · exact absurd hy h2
        · exact ⟨h1, h2⟩
    · rw [dedupAux, if_neg hy]
      constructor
      · intro h
        rcases List.mem_cons.mp h with rfl | h
        · exact ⟨List.mem_cons_self x t, hy⟩
        · obtain ⟨h1, h2⟩ := (ih (y :: seen)).mp h
          refine ⟨List.mem_cons_of_mem y h1, fun hx => h2 (List.mem_cons_of_mem y hx)⟩
      · rintro ⟨h1, h2⟩
        rcases List.mem_cons.mp h1 with rfl | h1
        · exact List.mem_cons_self x _
        · by_cases hxy : x = y
          · subst hxy; exact List.mem_cons_self x _
          · refine List.mem_cons_of_mem y ((ih (y :: seen)).mpr ⟨h1, fun hx => ?_⟩)
            rcases List.mem_cons.mp hx with h | h
            · exact hxy h
            · exact h2 h

theorem nodup_dedupAux : ∀ (l seen : List String), (dedupAux seen l).Nodup := by
  intro l
  induction l with
  | nil => intro seen; simp [dedupAux]
  | cons y t ih =>
    intro seen
    by_cases hy : y ∈ seen
    · rw [dedupAux, if_pos hy]; exact ih seen
    · rw [dedupAux, if_neg hy]
      refine List.nodup_cons.mpr ⟨fun hmem => ?_, ih (y :: seen)⟩
      exact ((mem_dedupAux t (y :: seen)).mp hmem).2 (List.mem_cons_self y seen)

theorem dedupAux_all_seen : ∀ (l seen : List String),
    (∀ x ∈ l, x ∈ seen) → dedupAux seen l = [] := by
  intro l
  induction l with
  | nil => intro seen _; rfl
  | cons y t ih =>
    intro seen h
    rw [dedupAux, if_pos (h y (List.mem_cons_self y t))]
    exact ih seen (fun x hx => h x (List.mem_cons_of_mem y hx))

theorem dedupAux_append_absorb : ∀ (l : List String), ∀ (seen b : List String),
    l.Nodup → (∀ x ∈ l, x ∉ seen) → (∀ x ∈ b, x ∈ l ∨ x ∈ seen) →
    dedupAux seen (l ++ b) = l := by
  intro l
  induction l with
  | nil =>
    intro seen b _ _ hb
    refine dedupAux_all_seen b seen (fun x hx => ?_)
    rcases hb x hx with h | h
    · simp at h
    · exact h
  | cons y t ih =>
    intro seen b hnd hl hb
    have hy : y ∉ seen := hl y (List.mem_cons_self y t)
    rw [List.cons_append, dedupAux, if_neg hy]
    congr 1
    refine ih (y :: seen) b (List.nodup_cons.mp hnd).2 (fun x hx hmem => ?_)
      (fun x hx => ?_)
    · rcases List.mem_cons.mp hmem with rfl | h
      · exact (List.nodup_cons.mp hnd).1 hx
      · exact hl x (List.mem_cons_of_mem y hx) h
    · rcases hb x hx with h | h
      · rcases List.mem_cons.mp h with rfl | h
        · exact Or.inr (List.mem_cons_self x seen)
        · exact Or.inl h
      · exact Or.inr (List.mem_cons_of_mem y h)

theorem dedupFirst_append_absorb (a b : List String) :
    dedupFirst (dedupFirst (a ++ b) ++ b) = dedupFirst (a ++ b) := by
  refine dedupAux_append_absorb _ [] b (nodup_dedupAux (a ++ b) [])
    (by simp) (fun x hx => ?_)
  refine Or.inl ((mem_dedupAux (a ++ b) []).mpr ⟨List.mem_append_right a hx, by simp⟩)

-- ======================================================================
-- Claim theorems
-- ======================================================================

theorem detectIntent_mem (s : String) : (detectIntent s).1 ∈ intentSet := by
  rw [detectIntent]
  split_ifs <;> decide

/-- C1: for every input text (including the empty string and arbitrary
garbled text) the rule-based intent extractor returns an intent from the
fixed closed intent set, and text on which none of the seven keyword
patterns fires yields `general_question`; the extractor is a total
function and never returns an error. -/
theorem extractIntent_closed_set (text : String) :
    (extractIntentAndEntities text).intent ∈ intentSet ∧
      (hasAnyIntentKeyword (toLowerStr text) = false →
        (extractIntentAndEntities text).intent = "general_question") := by
  constructor
  · show (detectIntent (toLowerStr text)).1 ∈ intentSet
    exact detectIntent_mem _
  · intro h
    simp only [hasAnyIntentKeyword, Bool.or_eq_false_iff] at h
    obtain ⟨⟨⟨⟨⟨⟨h1, h2⟩, h3⟩, h4⟩, h5⟩, h6⟩, h7⟩ := h
    show (detectIntent (toLowerStr text)).1 = "general_question"
    rw [detectIntent]
    simp [h1, h2, h3, h4, h5, h6, h7]

/-- Witness for C1 at the garbled input `"zzq @!# 999"`. -/
theorem extractIntent_closed_set_witness :
    hasAnyIntentKeyword (toLowerStr "zzq @!# 999") = false ∧
      (extractIntentAndEntities "zzq @!# 999").intent = "general_question" :=
  ⟨by decide, (extractIntent_closed_set "zzq @!# 999").2 (by decide)⟩

/-- C4 (amended): oversized audio (above the 25 MB bound) is rejected by
`transcribe` with a validation error before any provider call is made, and
`transcribe` itself performs no retry — the error is thrown at once. -/
theorem transcribe_oversized_rejected (env : STTEnv) (buf : List Nat)
    (opts : STTOptions) (h : buf.length > MAX_FILE_SIZE) :
    transcribe env buf opts = (Except.error STTError.audioTooLarge, []) := by
  rw [transcribe, if_pos h]

/-- Witness for C4 on a 25 MB + 1 byte buffer. -/
theorem transcribe_oversized_rejected_witness :
    (List.replicate (MAX_FILE_SIZE + 1) 0).length > MAX_FILE_SIZE ∧
      transcribe
        { openaiConfigured := true, elevenConfigured := true, elevenHasSTT := true
          whisper := Except.ok { text := "hello" }, eleven := Except.ok { text := some "hello" } }
        (List.replicate (MAX_FILE_SIZE + 1) 0) {} =
      (Except.error STTError.audioTooLarge, []) := by
  have hlen : (List.replicate (MAX_FILE_SIZE + 1) (0 : Nat)).length > MAX_FILE_SIZE := by
    rw [List.length_replicate]
    exact Nat.lt_succ_self _
  exact ⟨hlen, transcribe_oversized_rejected _ _ _ hlen⟩

/-- Counterexample for C4 as stated: empty audio is *not* rejected with a
validation error before any provider call — an empty buffer passes the
size check and is forwarded to the configured provider, which is called
and whose result is returned. -/
theorem transcribe_empty_audio_forwarded :
    transcribe
      { openaiConfigured := true, elevenConfigured := false, elevenHasSTT := false
        whisper := Except.ok { text := "hello" }, eleven := Except.error () }
      [] {} =
    (Except.ok { text := "hello", confidence := some 90, source := STTSource.openai },
     [ProviderCall.whisper]) := by
  decide

/-- C5: preference merging is idempotent — merging the same delta twice
produces the same preference object as merging it once, across the voice
preference, the size-by-brand map and the three deduplicated lists.  The
hypothesis that the delta's size map has no duplicate keys is automatic
for any map that denotes a JS object. -/
theorem mergePreferences_idempotent (e d : UserVoicePreferences)
    (hd : ((d.sizePreferences.getD []).map Prod.fst).Nodup) :
    mergePreferences (mergePreferences e d) d = mergePreferences e d := by
  rw [mergePreferences, mergePreferences]
  simp only [UserVoicePreferences.mk.injEq]
  refine ⟨?_, ?_, ?_, ?_, ?_⟩
  · cases d.voicePreference <;> simp [oor]
  · simp only [Option.getD_some]
    rw [mergeObj_absorb _ _ hd]
  · simp only [Option.getD_some]
    rw [dedupFirst_append_absorb]
  · simp only [Option.getD_some]
    rw [dedupFirst_append_absorb]
  · simp only [Option.getD_some]
    rw [dedupFirst_append_absorb]

/-- Witness for C5 at a concrete existing object and delta. -/
theorem mergePreferences_idempotent_witness :
    ((((some [("acme", "M"), ("zara", "L")] : Option (List (String × String))).getD []).map
        Prod.fst).Nodup) ∧
      mergePreferences
        (mergePreferences
          { voicePreference := some "v1", colorPreferences := some ["red"] }
          { sizePreferences := some [("acme", "M"), ("zara", "L")]
            colorPreferences := some ["blue", "red"] })
        { sizePreferences := some [("acme", "M"), ("zara", "L")]
          colorPreferences := some ["blue", "red"] } =
      mergePreferences
        { voicePreference := some "v1", colorPreferences := some ["red"] }
        { sizePreferences := some [("acme", "M"), ("zara", "L")]
          colorPreferences := some ["blue", "red"] } :=
  ⟨by decide,
   mergePreferences_idempotent
     { voicePreference := some "v1", colorPreferences := some ["red"] }
     { sizePreferences := some [("acme", "M"), ("zara", "L")]
       colorPreferences := some ["blue", "red"] }
     (by decide)⟩

/-- C7 (amended): for a transcript of size N ≥ 1 and a window limit w ≥ 1,
`getConversationHistory` returns exactly `min N w` entries — the most
recent ones, verbatim — with no synthetic summary entry. -/
theorem getConversationHistory_window {α : Type} (log : List α) (k : Nat)
    (hk : 1 ≤ k) :
    (getConversationHistory (some log) k).length = min log.length k ∧
      getConversationHistory (some log) k = log.drop (log.length - k) := by
  have hk0 : k ≠ 0 := Nat.one_le_iff_ne_zero.mp hk
  constructor
  · rw [getConversationHistory, sliceLast, if_neg hk0, List.length_drop]
    omega
  · rw [getConversationHistory, sliceLast, if_neg hk0]

/-- Witness for C7 at a four-entry transcript and window 2. -/
theorem getConversationHistory_window_witness :
    (1 ≤ 2) ∧ (getConversationHistory (some [10, 20, 30, 40]) 2).length = min 4 2 :=
  ⟨by decide, by
    have h := (getConversationHistory_window [10, 20, 30, 40] 2 (by decide)).1
    simpa using h⟩

/-- Counterexample for C7 as stated: a transcript of 2 entries with window
limit 1 yields 1 entry, not `min (2, 1+1) = 2` — the output size is
`min N window`, not `min N (window+1)`, and no summary entry is added. -/
theorem getConversationHistory_not_window_plus_one :
    (getConversationHistory (some [10, 20]) 1).length = 1 ∧
      (1 : Nat) ≠ min 2 (1 + 1) := by
  decide

/-- C2: within the size bound, the transcription operation tries OpenAI
Whisper first — when it is configured and succeeds its wrapped result
(tagged `openai`) is returned and ElevenLabs is never called; on any
Whisper error (or when Whisper is unconfigured), ElevenLabs is tried and a
successful response with truthy text is returned tagged `elevenlabs`, the
call list showing Whisper (if configured) before ElevenLabs; and when both
providers fail or are unconfigured, the sentinel result with the
"transcription needed" text tagged `fallback` is returned instead of an
error being raised. -/
theorem transcribe_provider_chain (env : STTEnv) (buf : List Nat)
    (opts : STTOptions) (hlen : ¬ buf.length > MAX_FILE_SIZE) :
    (env.openaiConfigured = true → ∀ wr, env.whisper = Except.ok wr →
      transcribe env buf opts =
        (Except.ok (whisperResult wr opts), [ProviderCall.whisper]) ∧
        (whisperResult wr opts).source = STTSource.openai) ∧
    ((env.openaiConfigured = false ∨ env.whisper = Except.error ()) →
      env.elevenConfigured = true → env.elevenHasSTT = true →
      ∀ er t, env.eleven = Except.ok er → er.text = some t → t ≠ "" →
        transcribe env buf opts =
          (Except.ok { text := t, confidence := some (confOr er.confidence 80)
                       source := STTSource.elevenlabs },
           (if env.openaiConfigured then [ProviderCall.whisper] else []) ++
             [ProviderCall.eleven])) ∧
    ((env.openaiConfigured = false ∨ env.whisper = Except.error ()) →
     (env.elevenConfigured = false ∨ transcribeWithElevenLabs env = Except.error ()) →
      (transcribe env buf opts).1 = Except.ok fallbackSTTResult) ∧
    fallbackSTTResult.text = fallbackText ∧
    fallbackSTTResult.source = STTSource.fallback := by
  refine ⟨?_, ?_, ?_, rfl, rfl⟩
  · intro hc wr hw
    rw [transcribe, if_neg hlen]
    simp [hc, transcribeWithWhisper, hw, whisperResult]
  · intro hwfail hec hes er t hok htext hne
    have hwt : (if env.openaiConfigured then some (transcribeWithWhisper env opts)
        else none) = none ∨
        (if env.openaiConfigured then some (transcribeWithWhisper env opts)
        else none) = some (Except.error ()) := by
      cases hc : env.openaiConfigured with
      | false => left; simp [hc]
      | true =>
        rcases hwfail with h | h
        · rw [hc] at h; exact absurd h (by simp)
        · right; simp [hc, transcribeWithWhisper, h]
    have hel : transcribeWithElevenLabs env =
        Except.ok { text := t, confidence := some (confOr er.confidence 80)
                    source := STTSource.elevenlabs } := by
      simp [transcribeWithElevenLabs, hes, hok, htext, strTruthy, hne]
    rw [transcribe, if_neg hlen]
    rcases hwt with h | h <;>
      simp only [h, hec, hes, if_true, Bool.and_self, hel]
  · intro hwfail hefail
    have hwt : (if env.openaiConfigured then some (transcribeWithWhisper env opts)
        else none) = none ∨
        (if env.openaiConfigured then some (transcribeWithWhisper env opts)
        else none) = some (Except.error ()) := by
      cases hc : env.openaiConfigured with
      | false => left; simp [hc]
      | true =>
        rcases hwfail with h | h
        · rw [hc] at h; exact absurd h (by simp)
        · right; simp [hc, transcribeWithWhisper, h]
    have het : (if env.elevenConfigured then some (transcribeWithElevenLabs env)
        else none) = none ∨
        (if env.elevenConfigured then some (transcribeWithElevenLabs env)
        else none) = some (Except.error ()) := by
      cases hc : env.elevenConfigured with
      | false => left; simp [hc]
      | true =>
        rcases hefail with h | h
        · rw [hc] at h; exact absurd h (by simp)
        · right; simp [hc, h]
    rw [transcribe, if_neg hlen]
    rcases hwt with h | h <;> rcases het with h2 | h2 <;> simp [h, h2]

/-- Witness for C2: a three-byte buffer, Whisper configured and
succeeding. -/
theorem transcribe_provider_chain_witness :
    transcribe
      { openaiConfigured := true, elevenConfigured := true, elevenHasSTT := true
        whisper := Except.ok { text := "find blue dresses" }
        eleven := Except.ok { text := some "find blue dresses" } }
      [1, 2, 3] {} =
      (Except.ok (whisperResult { text := "find blue dresses" } {}),
       [ProviderCall.whisper]) :=
  ((transcribe_provider_chain
      { openaiConfigured := true, elevenConfigured := true, elevenHasSTT := true
        whisper := Except.ok { text := "find blue dresses" }
        eleven := Except.ok { text := some "find blue dresses" } }
      [1, 2, 3] {} (by decide)).1 rfl _ rfl).1

/-- C3 (code bug): `processVoiceInput` as written throws for *every* input
— with a user id, `this.getContextPrompt` (line 154) does not exist; and
without one, `conversationHistory` (line 177) is read before its
declaration (line 185) — so a turn whose synthesis stages all fail never
returns the text-only result the claim requires; the error survives all
three retry attempts and propagates to the caller. -/
theorem processVoiceInput_always_throws (sttEnv : STTEnv) (buf : List Nat)
    (userId : Option String) (w : VoiceWorld) :
    processVoiceInput sttEnv buf userId w = Except.error () := by
  have hattempt : processVoiceAttempt sttEnv buf userId w = Except.error () := by
    cases userId with
    | some uid => rfl
    | none =>
      show (match (transcribe sttEnv buf { prompt := none }).1 with
        | Except.error _ => Except.error ()
        | Except.ok sttResult =>
          if sttResult.text == "" || sttResult.text == fallbackText then
            Except.error ()
          else Except.error ()) = (Except.error () : Except Unit (TurnResult × VoiceWorld))
      cases (transcribe sttEnv buf { prompt := none }).1 with
      | error e => rfl
      | ok r => exact ite_self _
  rw [processVoiceInput, retryN_three, hattempt]

/-- C6: the size entry saved for brand `Acme` survives a later merge whose
delta does not mention `Acme`: after saving `{Acme: "M"}`,
`getUserPreferences` maps `Acme` to `"M"`, and after a further
`saveUserPreferences` with any delta whose size map has no `Acme` key it
still does. -/
theorem acme_size_entry_preserved (s : PrefState) (d2 : UserVoicePreferences)
    (h : alookup (d2.sizePreferences.getD []) "Acme" = none) :
    alookup
      ((getUserPreferences
        (saveUserPreferences s { sizePreferences := some [("Acme", "M")] })).sizePreferences.getD [])
      "Acme" = some "M" ∧
    alookup
      ((getUserPreferences
        (saveUserPreferences
          (saveUserPreferences s { sizePreferences := some [("Acme", "M")] })
          d2)).sizePreferences.getD [])
      "Acme" = some "M" := by
  have h1 : ∀ (ex : List (String × String)),
      alookup (mergeObj ex [("Acme", "M")]) "Acme" = some "M" := by
    intro ex
    rw [alookup_mergeObj]
    simp [alookup, oor]
  constructor
  · exact h1 _
  · show alookup
      ((mergePreferences
        (getUserVoicePreferencesS
          (saveUserPreferences s { sizePreferences := some [("Acme", "M")] }))
        d2).sizePreferences.getD []) "Acme" = some "M"
    rw [mergePreferences]
    simp only [Option.getD_some]
    rw [alookup_mergeObj, h]
    show oor none _ = some "M"
    rw [oor]
    exact h1 _

/-- Witness for C6: empty initial storage and a delta for brand `Bravo`. -/
theorem acme_size_entry_preserved_witness :
    alookup (((some [("Bravo", "L")] : Option (List (String × String))).getD []))
      "Acme" = none ∧
    alookup
      ((getUserPreferences
        (saveUserPreferences
          (saveUserPreferences {} { sizePreferences := some [("Acme", "M")] })
          { sizePreferences := some [("Bravo", "L")] })).sizePreferences.getD [])
      "Acme" = some "M" :=
  ⟨by decide,
   (acme_size_entry_preserved {} { sizePreferences := some [("Bravo", "L")] }
     (by decide)).2⟩

/-- C8 (amended): in a (slip-corrected) voice turn that transcribes,
extracts and generates successfully and detects a preference delta
containing a size preference or a voice preference, the preferences are
saved, the returned `preferencesSaved` flag is true and the returned text
is the generated response with the acknowledgement clause appended.  (For
deltas with only color/style/brand preferences the flag is true but no
acknowledgement is appended — see the counterexample.) -/
theorem preference_ack_for_size_or_voice (sttEnv : STTEnv) (llm : LLMEnv)
    (tts : TTSEnv) (buf : List Nat) (uid : String) (w : VoiceWorld) (now : Nat)
    (tRes : STTResult) (ia : IntentAnalysis) (gen : String)
    (p : UserVoicePreferences)
    (h1 : (transcribe sttEnv buf (voicePromptOpts (some uid) w.conversationLog)).1 =
      Except.ok tRes)
    (h2 : tRes.text ≠ "")
    (h3 : tRes.text ≠ fallbackText)
    (h4 : llm.extractOutcome = Except.ok ia)
    (h5 : llm.generateOutcome = Except.ok gen)
    (h6 : detectPreferencesFromQuery tRes.text ia = some p)
    (h7 : ackCond p = true) :
    ∃ r w', processVoiceInputIntended sttEnv llm tts buf (some uid) w now =
        Except.ok (r, w') ∧
      r.preferencesSaved = true ∧ r.text = gen ++ ackText := by
  have hif : (tRes.text == "" || tRes.text == fallbackText) = false := by
    simp [h2, h3]
  rw [processVoiceInputIntended, retryN_three]
  unfold processVoiceAttemptIntended
  rw [h1]
  simp only [hif, Bool.false_eq_true, if_false, h4, h5, h6, h7, if_true,
    Option.isSome_some, Bool.and_self]
  exact ⟨_, _, rfl, rfl, rfl⟩

/-- Witness for C8: the utterance "i wear a medium in acme" saves a size
preference and the response carries the acknowledgement clause. -/
theorem preference_ack_for_size_or_voice_witness :
    detectPreferencesFromQuery "i wear a medium in acme"
        { intent := "save_preference", entities := {}, confidence := 85 } =
      some { sizePreferences := some [("acme", "MEDIUM")] } ∧
    ∃ r w', processVoiceInputIntended
        { openaiConfigured := true, elevenConfigured := false, elevenHasSTT := false
          whisper := Except.ok { text := "i wear a medium in acme" }
          eleven := Except.error () }
        { extractOutcome := Except.ok
            { intent := "save_preference", entities := {}, confidence := 85 }
          generateOutcome := Except.ok "Sure." }
        { ttsOutcome := Except.error () }
        [1, 2, 3] (some "u1") {} 7 = Except.ok (r, w') ∧
      r.preferencesSaved = true ∧ r.text = "Sure." ++ ackText :=
  ⟨by decide,
   preference_ack_for_size_or_voice _ _ _ _ _ _ _
     { text := "i wear a medium in acme", confidence := some 90
       source := STTSource.openai }
     { intent := "save_preference", entities := {}, confidence := 85 }
     "Sure." { sizePreferences := some [("acme", "MEDIUM")] }
     (by decide) (by decide) (by decide) rfl rfl (by decide) (by decide)⟩

/-- Counterexample for C8 as stated: a (slip-corrected) voice turn on
"find blue dresses" saves a color/style-only preference delta —
`preferencesSaved` is true — yet the returned text is exactly the
generated response, with no acknowledgement clause appended. -/
theorem preference_saved_without_ack :
    (processVoiceInputIntended
        { openaiConfigured := true, elevenConfigured := false, elevenHasSTT := false
          whisper := Except.ok { text := "find blue dresses" }
          eleven := Except.error () }
        { extractOutcome := Except.ok (extractIntentAndEntities "find blue dresses")
          generateOutcome := Except.ok "Here are some blue dresses." }
        { ttsOutcome := Except.error () }
        [1, 2, 3] (some "u1") {} 7).map
        (fun rw => (rw.1.preferencesSaved, rw.1.text)) =
      Except.ok (true, "Here are some blue dresses.") ∧
    "Here are some blue dresses." ≠ "Here are some blue dresses." ++ ackText := by
  constructor
  · decide
  · decide

theorem attemptIntended_convState (sttEnv : STTEnv) (llm : LLMEnv) (tts : TTSEnv)
    (buf : List Nat) (userId : Option String) (w : VoiceWorld) (now : Nat)
    (r : TurnResult) (w' : VoiceWorld)
    (h : processVoiceAttemptIntended sttEnv llm tts buf userId w now =
      Except.ok (r, w')) :
    w'.convState = w.convState ∨
    (∃ s, w.convState = some s ∧
      w'.convState.bind (fun t => t.context.messageCount) =
        some (s.context.messageCount.getD 0 + 1)) ∨
    (w.convState = none ∧
      w'.convState.bind (fun t => t.context.messageCount) = some 1) := by
  unfold processVoiceAttemptIntended at h
  repeat' (first | split at h | simp only [] at h)
  all_goals first
    | exact Except.noConfusion h
    | (injection h with hpair
       injection hpair with hr hw
       subst hw
       first
         | exact Or.inl rfl
         | exact Or.inr (Or.inl ⟨_, by assumption, rfl⟩)
         | exact Or.inr (Or.inr ⟨by assumption, rfl⟩))

theorem processTextQuery_msgCount (llm : LLMEnv) (tts : TTSEnv) (query : String)
    (userId : Option String) (ap : Bool) (w : VoiceWorld) (now : Nat)
    (r : TextTurnResult) (w' : VoiceWorld)
    (h : processTextQuery llm tts query userId ap w now = Except.ok (r, w')) :
    w'.convState.bind (fun s => s.context.messageCount) =
      w.convState.bind (fun s => s.context.messageCount) := by
  unfold processTextQuery at h
  repeat' (first | split at h | simp only [] at h)
  all_goals first
    | exact Except.noConfusion h
    | (injection h with hpair
       injection hpair with hr hw
       subst hw
       first
         | rfl
         | (rename_i heq _; rw [heq]; rfl))

/-- C9: the turn counter is monotonically non-decreasing.  A fresh state
from `startConversation` starts it at 0; a (slip-corrected) voice turn
never decreases it (it either leaves the cached state alone, increments
the counter of an existing state by one, or creates a fresh state at 1); a
text turn preserves it exactly; and a voice turn processed without a prior
state yields either no state or a state with counter 1. -/
theorem messageCount_monotone :
    (∀ (uid : String) (now : Nat) (ps : PrefState),
      (startConversation uid now ps).context.messageCount = some 0) ∧
    (∀ (sttEnv : STTEnv) (llm : LLMEnv) (tts : TTSEnv) (buf : List Nat)
       (userId : Option String) (w : VoiceWorld) (now : Nat),
      msgCount (convStateAfterVoice sttEnv llm tts buf userId w now) ≥
        msgCount w.convState) ∧
    (∀ (llm : LLMEnv) (tts : TTSEnv) (query : String) (userId : Option String)
       (ap : Bool) (w : VoiceWorld) (now : Nat),
      (convStateAfterText llm tts query userId ap w now).bind
          (fun s => s.context.messageCount) =
        w.convState.bind (fun s => s.context.messageCount)) ∧
    (∀ (sttEnv : STTEnv) (llm : LLMEnv) (tts : TTSEnv) (buf : List Nat)
       (userId : Option String) (w : VoiceWorld) (now : Nat),
      w.convState = none →
      (convStateAfterVoice sttEnv llm tts buf userId w now).bind
          (fun s => s.context.messageCount) = none ∨
      (convStateAfterVoice sttEnv llm tts buf userId w now).bind
          (fun s => s.context.messageCount) = some 1) := by
  refine ⟨fun _ _ _ => rfl, ?_, ?_, ?_⟩
  · intro sttEnv llm tts buf userId w now
    rw [convStateAfterVoice, processVoiceInputIntended, retryN_three]
    cases hres : processVoiceAttemptIntended sttEnv llm tts buf userId w now with
    | error e => exact Nat.le_refl _
    | ok rw =>
      obtain ⟨r, w'⟩ := rw
      change msgCount w'.convState ≥ msgCount w.convState
      rcases attemptIntended_convState sttEnv llm tts buf userId w now r w' hres with
        h | ⟨s, hs, hm⟩ | ⟨hn, hm⟩
      · rw [h]
      · rw [hs]
        cases hw' : w'.convState with
        | none => rw [hw'] at hm; simp at hm
        | some t =>
          rw [hw'] at hm
          simp only [Option.some_bind] at hm
          simp [msgCount, hm]
      · rw [hn]
        exact Nat.zero_le _
  · intro llm tts query userId ap w now
    rw [convStateAfterText]
    cases hres : processTextQuery llm tts query userId ap w now with
    | error e => rfl
    | ok rw =>
      obtain ⟨r, w'⟩ := rw
      exact processTextQuery_msgCount llm tts query userId ap w now r w' hres
  · intro sttEnv llm tts buf userId w now hnone
    rw [convStateAfterVoice, processVoiceInputIntended, retryN_three]
    cases hres : processVoiceAttemptIntended sttEnv llm tts buf userId w now with
    | error e =>
      left
      show w.convState.bind (fun s => s.context.messageCount) = none
      rw [hnone]; rfl
    | ok rw =>
      obtain ⟨r, w'⟩ := rw
      change w'.convState.bind (fun s => s.context.messageCount) = none ∨
        w'.convState.bind (fun s => s.context.messageCount) = some 1
      rcases attemptIntended_convState sttEnv llm tts buf userId w now r w' hres with
        h | ⟨s, hs, hm⟩ | ⟨hn, hm⟩
      · left; rw [h, hnone]; rfl
      · rw [hnone] at hs; exact Option.noConfusion hs
      · right; exact hm

/-- Witness for C9: a concrete voice turn on an empty prior world creates
a state whose counter is 1 (or, had the turn failed, no state). -/
theorem messageCount_monotone_witness :
    (({} : VoiceWorld).convState = none) ∧
    ((convStateAfterVoice
        { openaiConfigured := true, elevenConfigured := false, elevenHasSTT := false
          whisper := Except.ok { text := "find blue dresses" }
          eleven := Except.error () }
        { extractOutcome := Except.ok (extractIntentAndEntities "find blue dresses")
          generateOutcome := Except.ok "Here you go." }
        { ttsOutcome := Except.error () }
        [1, 2, 3] (some "u1") {} 7).bind (fun s => s.context.messageCount) = none ∨
      (convStateAfterVoice
        { openaiConfigured := true, elevenConfigured := false, elevenHasSTT := false
          whisper := Except.ok { text := "find blue dresses" }
          eleven := Except.error () }
        { extractOutcome := Except.ok (extractIntentAndEntities "find blue dresses")
          generateOutcome := Except.ok "Here you go." }
        { ttsOutcome := Except.error () }
        [1, 2, 3] (some "u1") {} 7).bind (fun s => s.context.messageCount) = some 1) :=
  ⟨rfl,
   messageCount_monotone.2.2.2
     { openaiConfigured := true, elevenConfigured := false, elevenHasSTT := false
       whisper := Except.ok { text := "find blue dresses" }
       eleven := Except.error () }
     { extractOutcome := Except.ok (extractIntentAndEntities "find blue dresses")
       generateOutcome := Except.ok "Here you go." }
     { ttsOutcome := Except.error () }
     [1, 2, 3] (some "u1") {} 7 rfl⟩

/-- C10: `getUserPreferences` never throws — its model is a total function
because every lookup error is caught and mapped to `{}` — and when the
cache lookup, the durable-store lookup and the profile lookup all fail or
find nothing, it returns the empty preference object. -/
theorem getUserVoicePreferences_never_throws_empty (env : PrefLookupEnv)
    (h1 : lookupEmpty env.cache) (h2 : lookupEmpty env.memory)
    (h3 : lookupEmpty env.profile) :
    getUserVoicePreferencesR env = emptyPrefs := by
  rw [getUserVoicePreferencesR]
  rcases h1 with h1 | h1 <;> rw [h1]
  rcases h2 with h2 | h2 <;> rw [h2]
  rcases h3 with h3 | h3 <;> rw [h3]

/-- Witness for C10: a throwing cache, an empty store and an absent
profile. -/
theorem getUserVoicePreferences_never_throws_empty_witness :
    lookupEmpty (Except.error () : Except Unit (Option UserVoicePreferences)) ∧
    getUserVoicePreferencesR
      { cache := Except.error (), memory := Except.ok none, profile := Except.ok none } =
      emptyPrefs :=
  ⟨Or.inl rfl,
   getUserVoicePreferences_never_throws_empty
     { cache := Except.error (), memory := Except.ok none, profile := Except.ok none }
     (Or.inl rfl) (Or.inr rfl) (Or.inr rfl)⟩

theorem string_append_ne_empty (a b : String) (h : a ≠ "") : a ++ b ≠ "" := by
  intro hab
  apply h
  obtain ⟨da⟩ := a
  obtain ⟨db⟩ := b
  have hd : da ++ db = [] := congrArg String.data hab
  obtain ⟨h1, _⟩ := List.append_eq_nil.mp hd
  rw [h1]

/-- Context for C3: on the minimally slip-corrected body, a voice turn
whose transcription, extraction and generation succeed but whose entire
speech-synthesis step fails returns a result with the (nonempty) response
text and no audio, without throwing — the behaviour the claim and the
catch at lines 241-247 intend. -/
theorem intended_turn_text_only_on_synthesis_failure (sttEnv : STTEnv)
    (llm : LLMEnv) (tts : TTSEnv) (buf : List Nat) (userId : Option String)
    (w : VoiceWorld) (now : Nat) (tRes : STTResult) (ia : IntentAnalysis)
    (gen : String)
    (h1 : (transcribe sttEnv buf (voicePromptOpts userId w.conversationLog)).1 =
      Except.ok tRes)
    (h2 : tRes.text ≠ "")
    (h3 : tRes.text ≠ fallbackText)
    (h4 : llm.extractOutcome = Except.ok ia)
    (h5 : llm.generateOutcome = Except.ok gen)
    (h6 : gen ≠ "")
    (h7 : tts.ttsOutcome = Except.error ()) :
    ∃ r w', processVoiceInputIntended sttEnv llm tts buf userId w now =
        Except.ok (r, w') ∧
      r.audio = none ∧ r.text ≠ "" := by
  have hif : (tRes.text == "" || tRes.text == fallbackText) = false := by
    simp [h2, h3]
  rw [processVoiceInputIntended, retryN_three]
  unfold processVoiceAttemptIntended
  rw [h1]
  simp only [hif, Bool.false_eq_true, if_false, h4, h5, h7]
  cases hts : detectPreferencesFromQuery tRes.text ia with
  | none =>
    cases userId with
    | none => exact ⟨_, _, rfl, rfl, h6⟩
    | some uid => exact ⟨_, _, rfl, rfl, h6⟩
  | some p =>
    cases userId with
    | none => exact ⟨_, _, rfl, rfl, h6⟩
    | some uid =>
      by_cases hack : ackCond p = true
      · simp only [hack, if_true]
        exact ⟨_, _, rfl, rfl, string_append_ne_empty gen ackText h6⟩
      · simp only [hack, if_false]
        exact ⟨_, _, rfl, rfl, h6⟩
